import Mathlib

/-!
Verification of the `cspm-monitor` finding-lifecycle core
(`lambda-src/scanner.py`, `lambda-src/api.py`, `lambda-src/archiver.py`)
against its natural-language specification.

The Python modules are shallowly embedded: loosely-structured findings and
Lambda events become the dynamic value type `PyVal`; fallible operations
(raising of Python exceptions) become `Except String`; each AWS collaborator
(SSM, DynamoDB, S3, SNS) becomes an explicit environment field whose outcome
is chosen by the environment, and the side effects performed against it
(puts, publishes, S3 writes, deletes) are returned as explicit traces.
-/

set_option maxHeartbeats 1000000
set_option linter.unusedVariables false

namespace CSPM

/-- A dynamic Python value, as found in Security Hub findings and Lambda
events.  `jsonStr v` stands for a Python string whose text is the JSON
serialization of `v`; it is how SQS record bodies (JSON carried inside a
string) are modelled.  Binary floats do not occur in any code path a claim
touches (the Decimal/float conversion loops are no-ops on these values). -/
inductive PyVal : Type where
  | pyNone  : PyVal
  | str     : String → PyVal
  | int     : Int → PyVal
  | list    : List PyVal → PyVal
  | dict    : List (String × PyVal) → PyVal
  | jsonStr : PyVal → PyVal
  deriving Repr, Inhabited

/-- Lookup in a Python dict (keys are unique; first match). -/
def pyLookup : List (String × PyVal) → String → Option PyVal
  | [], _ => none
  | p :: rest, k => if p.1 == k then some p.2 else pyLookup rest k

/-- Python `v.get(k, d)`: defined on dicts (the key being present with value
`None` returns `None`, not the default); any other receiver raises
`AttributeError`. -/
def PyVal.get (v : PyVal) (k : String) (d : PyVal) : Except String PyVal :=
  match v with
  | .dict kvs => .ok ((pyLookup kvs k).getD d)
  | _ => .error "AttributeError: object has no attribute get"

/-- Python `v[k]` for a string key: `KeyError` when absent, `TypeError` on a
non-dict receiver. -/
def PyVal.sub (v : PyVal) (k : String) : Except String PyVal :=
  match v with
  | .dict kvs =>
    match pyLookup kvs k with
    | some x => .ok x
    | none => .error "KeyError"
  | _ => .error "TypeError: object is not subscriptable"

/-- Python `v[0]`: first element of a list (`IndexError` when empty),
`TypeError` on a non-list receiver. -/
def PyVal.index0 (v : PyVal) : Except String PyVal :=
  match v with
  | .list [] => .error "IndexError: list index out of range"
  | .list (x :: _) => .ok x
  | _ => .error "TypeError: object is not subscriptable"

/-- A very small JSON serializer standing for `json.dumps(·, default=str)`.
Only the shape matters to the program (the text is stored opaquely in
`raw_finding`), so the exact whitespace/indent of `json.dumps` is not
reproduced. -/
def pyDump : PyVal → String
  | .pyNone => "null"
  | .str s => "\"" ++ s ++ "\""
  | .int n => toString n
  | .list l => "[" ++ String.intercalate ", " (pyDumpList l) ++ "]"
  | .dict kvs => "\x7b" ++ String.intercalate ", " (pyDumpDict kvs) ++ "\x7d"
  | .jsonStr v => "\"" ++ pyDump v ++ "\""
where
  pyDumpList : List PyVal → List String
    | [] => []
    | x :: xs => pyDump x :: pyDumpList xs
  pyDumpDict : List (String × PyVal) → List String
    | [] => []
    | (k, v) :: xs => ("\"" ++ k ++ "\": " ++ pyDump v) :: pyDumpDict xs

/-- Python `str(v)` as used in f-strings. -/
def pyStr : PyVal → String
  | .pyNone => "None"
  | .str s => s
  | .int n => toString n
  | .list l => pyDump (.list l)
  | .dict kvs => pyDump (.dict kvs)
  | .jsonStr v => pyDump v

/-- Python `v == "s"` for a string literal `s` drawn from the code's marker
words (`'aws.securityhub'`, `'aws:sqs'`, `'CRITICAL'`, `'HIGH'`).  A
`jsonStr` value is a serialized-JSON text, which always begins with a quote,
bracket, brace, digit, sign or the letters of `null`, so it is never equal to
any of those markers; the comparison is modelled as false. -/
def PyVal.eqStr (v : PyVal) (s : String) : Bool :=
  match v with
  | .str t => t == s
  | _ => false

/-- Python `k in v` for a string `k`: key membership on dicts, element
membership on lists, substring on strings, `TypeError` otherwise. -/
def pyContains (v : PyVal) (k : String) : Except String Bool :=
  match v with
  | .dict kvs => .ok (kvs.any (fun p => p.1 == k))
  | .list l => .ok (l.any (fun x => x.eqStr k))
  | .str s =>
    .ok ((List.range (s.length + 1)).any
      (fun i => k.toList.isPrefixOf (s.toList.drop i)))
  | _ => .error "TypeError: argument is not iterable"

/-- Python `for x in v` (and `len(v)`, evaluated just before the loop):
lists iterate their elements, dicts their keys, strings their characters;
`None`/ints raise `TypeError`. -/
def PyVal.iter (v : PyVal) : Except String (List PyVal) :=
  match v with
  | .list l => .ok l
  | .dict kvs => .ok (kvs.map (fun p => .str p.1))
  | .str s => .ok (s.toList.map (fun c => .str (String.mk [c])))
  | .jsonStr w => .ok ((pyDump w).toList.map (fun c => .str (String.mk [c])))
  | _ => .error "TypeError: object is not iterable"

/-- Python `json.loads`: a `jsonStr` body parses to its payload; a plain
`.str` models non-JSON text and fails to parse; non-strings raise
`TypeError`. -/
def json_loads : PyVal → Except String PyVal
  | .jsonStr v => .ok v
  | .str _ => .error "json.decoder.JSONDecodeError"
  | _ => .error "TypeError: the JSON object must be str"

end CSPM

namespace CSPM.Scanner

/-- `calculate_ttl_timestamp` (scanner.py:41-46).  Line 45 evaluates
`timedelta(days=days_from_now)`, but `timedelta` is never imported in
scanner.py (line 11 imports only `datetime` and `timezone` from the
`datetime` module), so every call raises `NameError` before producing a
timestamp. -/
def calculate_ttl_timestamp (days_from_now : Int) : Except String Int :=
  .error "NameError: name 'timedelta' is not defined"

/-- Modelled from the spec: the TTL computation scanner.py:41-46 is written
to perform — midnight UTC of the current day plus the retention-day count,
as epoch seconds — and which the repository's own unit tests
(tests/unit/test_scanner.py, `TestCalculateTTLTimestamp`) assert, but which
the module as shipped cannot perform because `timedelta` is not imported.
`nowEpoch` is the current UTC time in epoch seconds. -/
def calculate_ttl_timestamp_spec (nowEpoch days_from_now : Nat) : Nat :=
  (nowEpoch / 86400 + days_from_now) * 86400

/-- The per-field extraction of `process_finding` (scanner.py:52-59);
any exception here is the `try` body raising. -/
structure RawFields where
  finding_id : PyVal
  severity : PyVal
  title : PyVal
  description : PyVal
  resource_type : PyVal
  resource_id : PyVal
  account_id : PyVal
  region : PyVal
  deriving Repr

/-- scanner.py:52-59.  Note that lines 56 and 57 each evaluate
`finding.get('Resources', [{}])[0]` afresh. -/
def extract_fields (finding : PyVal) : Except String RawFields := do
  let finding_id ← finding.get "Id" (.str "")
  let sevDict ← finding.get "Severity" (.dict [])
  let severity ← sevDict.get "Label" (.str "INFORMATIONAL")
  let title ← finding.get "Title" (.str "")
  let description ← finding.get "Description" (.str "")
  let resourcesA ← finding.get "Resources" (.list [PyVal.dict []])
  let firstA ← resourcesA.index0
  let resource_type ← firstA.get "Type" (.str "")
  let resourcesB ← finding.get "Resources" (.list [PyVal.dict []])
  let firstB ← resourcesB.index0
  let resource_id ← firstB.get "Id" (.str "")
  let account_id ← finding.get "AwsAccountId" (.str "")
  let region ← finding.get "Region" (.str "")
  .ok { finding_id, severity, title, description,
        resource_type, resource_id, account_id, region }

/-- The DynamoDB item built by `process_finding` (scanner.py:65-77).  The
float-to-Decimal loop (scanner.py:80-82) is a no-op on these values (none of
them is a binary float). -/
structure Item where
  id : PyVal
  severity : PyVal
  timestamp : String
  title : PyVal
  description : PyVal
  resource_type : PyVal
  resource_id : PyVal
  account_id : PyVal
  region : PyVal
  raw_finding : String
  ttl_timestamp : Int
  deriving Repr

/-- `process_finding` (scanner.py:48-88) with the TTL computation injected
as its one dependency: field extraction runs first (lines 52-59), then the
item dict is built, whose `ttl_timestamp` entry (line 76) calls the TTL
function; any exception anywhere in the body is caught by the blanket
handler (lines 86-88) and turned into `None`. -/
def process_finding_core (ttlRes : Except String Int) (nowIso : String)
    (finding : PyVal) : Option Item :=
  match extract_fields finding with
  | .error _ => none
  | .ok f =>
    match ttlRes with
    | .error _ => none
    | .ok ttl =>
      some { id := f.finding_id, severity := f.severity, timestamp := nowIso,
             title := f.title, description := f.description,
             resource_type := f.resource_type, resource_id := f.resource_id,
             account_id := f.account_id, region := f.region,
             raw_finding := pyDump finding, ttl_timestamp := ttl }

/-- `process_finding` (scanner.py:48-88) as shipped: the TTL computation is
`calculate_ttl_timestamp`, which always raises `NameError`. -/
def process_finding (nowIso : String) (ttlDays : Int) (finding : PyVal) :
    Option Item :=
  process_finding_core (calculate_ttl_timestamp ttlDays) nowIso finding

/-- Modelled from the spec: `process_finding` as it would behave with the
TTL computation the spec (and the repository's unit tests) describe, i.e.
with the missing `timedelta` import supplied. -/
def process_finding_spec (nowEpoch ttlDays : Nat) (nowIso : String)
    (finding : PyVal) : Option Item :=
  process_finding_core (.ok (calculate_ttl_timestamp_spec nowEpoch ttlDays))
    nowIso finding

/-- One SNS publish performed by `send_alert` (scanner.py:97-106). -/
structure AlertMsg where
  topic : String
  subject : String
  severity : PyVal
  message : String
  finding_id : PyVal
  deriving Repr

/-- The collaborators of one scanner invocation: the two SSM parameter
lookups (scanner.py:119 and scanner.py:94; `.error` is a `ClientError`),
the per-item outcome of `table.put_item` (scanner.py:155; `false` is a
`ClientError`), the configured `DYNAMODB_TTL_DAYS`, and the invocation's
wall-clock ISO timestamp. -/
structure ScanEnv where
  tableParam : Except String String
  topicParam : Except String String
  putOk : Item → Bool
  ttlDays : Int
  nowIso : String

/-- `send_alert` (scanner.py:90-110): publish to SNS only when the severity
is the string CRITICAL or HIGH; the SSM topic lookup happens inside that
branch, and every exception in the body is swallowed (lines 109-110).
Returns the publishes performed. -/
def send_alert (env : ScanEnv) (severity : PyVal) (message : String)
    (finding_id : PyVal) : List AlertMsg :=
  if severity.eqStr "CRITICAL" || severity.eqStr "HIGH" then
    match env.topicParam with
    | .error _ => []
    | .ok topic_arn =>
      [{ topic := topic_arn,
         subject := "CSPM Monitor - " ++ pyStr severity ++ " Security Finding",
         severity := severity, message := message, finding_id := finding_id }]
  else []

/-- The `for record in event['Records']` loop with its `else` clause
(scanner.py:132-138): the first record whose `eventSource` is `'aws:sqs'`
has its `body` JSON-parsed and its `detail.findings` taken, and the loop
breaks; records with any other `eventSource` are skipped; if no record
matches, `findings = []`. -/
def findings_from_records : List PyVal → Except String PyVal
  | [] => .ok (.list [])
  | r :: rest =>
    match r.get "eventSource" .pyNone with
    | .error e => .error e
    | .ok es =>
      if es.eqStr "aws:sqs" then
        match r.sub "body" with
        | .error e => .error e
        | .ok body =>
          match json_loads body with
          | .error e => .error e
          | .ok sqs_body =>
            match sqs_body.get "detail" (.dict []) with
            | .error e => .error e
            | .ok detail => detail.get "findings" (.list [])
      else
        findings_from_records rest

/-- The event-shape dispatch of `lambda_handler` (scanner.py:126-141),
checked in order: (a) `'source' in event and event['source'] ==
'aws.securityhub'` takes `event.detail.findings`; (b) `'Records' in event`
takes the findings of the first `aws:sqs` record; (c) otherwise
`event.get('findings', [])`. -/
def extract_findings (event : PyVal) : Except String PyVal :=
  match pyContains event "source" with
  | .error e => .error e
  | .ok hasSource =>
    match
      (if hasSource then
        match event.sub "source" with
        | .error e => .error e
        | .ok src => .ok (src.eqStr "aws.securityhub")
      else .ok false : Except String Bool) with
    | .error e => .error e
    | .ok srcMatch =>
      if srcMatch then
        match event.get "detail" (.dict []) with
        | .error e => .error e
        | .ok detail => detail.get "findings" (.list [])
      else
        match pyContains event "Records" with
        | .error e => .error e
        | .ok hasRecords =>
          if hasRecords then
            match event.sub "Records" with
            | .error e => .error e
            | .ok records =>
              match records.iter with
              | .error e => .error e
              | .ok recList => findings_from_records recList
          else
            event.get "findings" (.list [])

/-- Accumulator of the per-finding loop (scanner.py:145-168). -/
structure LoopState where
  processed : Nat
  stored : Nat
  puts : List Item
  alerts : List AlertMsg
  deriving Repr

/-- One iteration of the loop (scanner.py:145-168): count the finding as
processed; skip it when `process_finding` returned `None`; otherwise put it
(a `ClientError` from `put_item` is logged and the loop continues, line
166-168); on a successful put count it as stored and run the alert branch
(lines 158-162). -/
def process_one (env : ScanEnv) (st : LoopState) (finding : PyVal) :
    LoopState :=
  let st := { st with processed := st.processed + 1 }
  match process_finding env.nowIso env.ttlDays finding with
  | none => st
  | some item =>
    if env.putOk item then
      let severity := item.severity
      let newAlerts :=
        if severity.eqStr "CRITICAL" || severity.eqStr "HIGH" then
          send_alert env severity ("Security Finding: " ++ pyStr item.title)
            item.id
        else []
      { st with stored := st.stored + 1, puts := st.puts ++ [item],
                alerts := st.alerts ++ newAlerts }
    else st

/-- The scanner's success response (scanner.py:173-181) together with the
store writes and SNS publishes the invocation performed. -/
structure ScanResult where
  statusCode : Nat
  findings_processed : Nat
  findings_stored : Nat
  puts : List Item
  alerts : List AlertMsg
  deriving Repr

/-- `lambda_handler` (scanner.py:112-185): resolve the table name from SSM
(a failure is fatal and re-raised, lines 183-185), dispatch on the event
shape, run the per-finding loop, and return the two counts.  Any exception
(SSM failure, a malformed event shape raising during dispatch or iteration)
propagates out of the Lambda. -/
def lambda_handler (env : ScanEnv) (event : PyVal) :
    Except String ScanResult :=
  match env.tableParam with
  | .error e => .error e
  | .ok _table_name =>
    match extract_findings event with
    | .error e => .error e
    | .ok findingsVal =>
      match findingsVal.iter with
      | .error e => .error e
      | .ok findings =>
        let st := findings.foldl (process_one env) ⟨0, 0, [], []⟩
        .ok { statusCode := 200, findings_processed := st.processed,
              findings_stored := st.stored, puts := st.puts,
              alerts := st.alerts }

end CSPM.Scanner

namespace CSPM.Archiver

/-- A stored record as the archiver sees it: its primary key `id` (used by
the delete phase, archiver.py:134) and its `ttl_timestamp` (used by the scan
filter, archiver.py:46).  The other attributes ride along unexamined and are
omitted. -/
structure ArcItem where
  id : String
  ttl_timestamp : Int
  deriving Repr, DecidableEq

/-- One S3 `put_object` performed by `archive_findings_to_s3`
(archiver.py:102-114), with the metadata that matters: the batch's finding
count and the configured retention days. -/
structure S3Write where
  finding_count : Nat
  retention_days : Int
  deriving Repr, DecidableEq

/-- The collaborators of one archiver invocation.  `tableParam` is the SSM
lookup (archiver.py:151); `table` is the primary store's contents in scan
order; `scanHealth` is whether `table.scan` works (`.error` = `ClientError`,
re-raised at archiver.py:62-64); `bucket` is `S3_ARCHIVE_BUCKET` (empty
string when unset); `s3Put` is the outcome of `s3.put_object`
(archiver.py:102, all-or-nothing); `deleteOutcome` is the outcome of the
batched deletes (archiver.py:129-135): `.error (msg, k)` means a
`ClientError` was raised after `k` single-item deletes had been applied. -/
structure ArchEnv where
  tableParam : Except String String
  table : List ArcItem
  scanHealth : Except String Unit
  bucket : String
  s3Put : Except String Unit
  deleteOutcome : Except (String × Nat) Unit
  retention_days : Int
  nowEpoch : Int
  nowIso : String

/-- `get_expired_findings` (archiver.py:41-64): a paginated scan, looped to
exhaustion (lines 52-57), filtering on `ttl_timestamp < cutoff`; a
`ClientError` from the scan is re-raised. -/
def get_expired_findings (env : ArchEnv) (cutoff_timestamp : Int) :
    Except String (List ArcItem) :=
  match env.scanHealth with
  | .error e => .error e
  | .ok _ =>
    .ok (env.table.filter (fun it => it.ttl_timestamp < cutoff_timestamp))

/-- `archive_findings_to_s3` (archiver.py:66-121): with no bucket
configured, log a warning and return 0 without writing (lines 69-71);
otherwise serialize and compress the whole found set into one object and
upload it — `put_object` is all-or-nothing, so the call either writes the
full batch and returns `len(findings)` (line 117) or raises (lines
119-121).  The Decimal-to-float serialization loop (lines 77-86) and the
gzip compression are value-preserving on these records and are not modelled
field-by-field.  Returns the count together with the S3 writes performed. -/
def archive_findings_to_s3 (env : ArchEnv) (findings : List ArcItem)
    (bucket_name : String) : Except String (Nat × List S3Write) :=
  if bucket_name == "" then
    .ok (0, [])
  else
    match env.s3Put with
    | .error e => .error e
    | .ok _ =>
      .ok (findings.length,
        [{ finding_count := findings.length,
           retention_days := env.retention_days }])

/-- `delete_archived_findings` (archiver.py:123-142): delete each finding by
`id` in batches of 25; `deleted_count` is incremented once per finding, so
when no exception occurs the function returns `len(findings)`; a
`ClientError` mid-way leaves the deletes already applied in place and
re-raises (lines 140-142).  Returns the count on success; the error carries
the exception text and how many deletes had been applied. -/
def delete_archived_findings (env : ArchEnv) (findings : List ArcItem) :
    Except (String × Nat) Nat :=
  match env.deleteOutcome with
  | .ok _ => .ok findings.length
  | .error (msg, k) => .error (msg, min k findings.length)

/-- The archiver's response body (the fields of archiver.py:165-234 that
vary), together with the effects the run performed: the S3 writes and the
ids actually deleted from the primary store. -/
structure ArchOut where
  statusCode : Nat
  message : String
  findings_processed : Option Nat
  findings_archived : Option Nat
  findings_deleted : Option Nat
  error : Option String
  s3Writes : List S3Write
  deletedIds : List String
  deriving Repr, DecidableEq

/-- The outer `except Exception` handler (archiver.py:225-234): a 500 with
the fixed message `'Archival failed'` and — verbatim — `str(e)` in the
body's `error` field, and no count fields. -/
def archiver_fail (e : String) (writes : List S3Write)
    (deleted : List String) : ArchOut :=
  { statusCode := 500, message := "Archival failed",
    findings_processed := none, findings_archived := none,
    findings_deleted := none, error := some e,
    s3Writes := writes, deletedIds := deleted }

/-- `lambda_handler` (archiver.py:144-234): resolve the table, compute
`cutoff = now - retention_days` in epoch seconds (lines 155-156), scan for
expired findings; no-op success when none (lines 163-174); archive to S3
first (line 177); delete only when `archived_count == len(expired)`
(lines 180-210), reporting partial deletion as a distinct 500 (lines
197-210); otherwise a 500 reporting zero deletions (lines 211-223).  Any
exception lands in the outer handler (lines 225-234). -/
def lambda_handler (env : ArchEnv) : ArchOut :=
  match env.tableParam with
  | .error e => archiver_fail e [] []
  | .ok _ =>
    let cutoff_timestamp := env.nowEpoch - env.retention_days * 86400
    match get_expired_findings env cutoff_timestamp with
    | .error e => archiver_fail e [] []
    | .ok expired_findings =>
      if expired_findings.isEmpty then
        { statusCode := 200, message := "No expired findings to archive",
          findings_processed := some 0, findings_archived := some 0,
          findings_deleted := some 0, error := none,
          s3Writes := [], deletedIds := [] }
      else
        match archive_findings_to_s3 env expired_findings env.bucket with
        | .error e => archiver_fail e [] []
        | .ok (archived_count, writes) =>
          if archived_count == expired_findings.length then
            match delete_archived_findings env expired_findings with
            | .error (msg, k) =>
              archiver_fail msg writes
                ((expired_findings.take k).map (fun it => it.id))
            | .ok deleted_count =>
              if deleted_count == expired_findings.length then
                { statusCode := 200,
                  message := "Security findings archived successfully",
                  findings_processed := some expired_findings.length,
                  findings_archived := some archived_count,
                  findings_deleted := some deleted_count, error := none,
                  s3Writes := writes,
                  deletedIds := expired_findings.map (fun it => it.id) }
              else
                { statusCode := 500,
                  message :=
                    "Partial archival failure - manual intervention required",
                  findings_processed := some expired_findings.length,
                  findings_archived := some archived_count,
                  findings_deleted := some deleted_count,
                  error :=
                    some "Failed to delete all archived findings from DynamoDB",
                  s3Writes := writes,
                  deletedIds :=
                    (expired_findings.take deleted_count).map (fun it => it.id) }
          else
            { statusCode := 500,
              message :=
                "Archival failed - no findings deleted to prevent data loss",
              findings_processed := some expired_findings.length,
              findings_archived := some archived_count,
              findings_deleted := some 0,
              error := some "Failed to archive all findings to S3",
              s3Writes := writes, deletedIds := [] }

end CSPM.Archiver

namespace CSPM.Api

/-- A stored finding as the API sees it: its primary key and its (possibly
absent, e.g. under the summary fallback's severity-only projection)
`severity` attribute.  The remaining attributes ride along unexamined; the
Decimal-to-float conversion loops (api.py:65-68, 85-87) concern only the
numeric attributes and are value-preserving here. -/
structure ApiItem where
  id : String
  severity : Option String
  deriving Repr, DecidableEq

/-- The collaborators of one API invocation.  `tableParam` is the SSM lookup
(api.py:31, reached through `get_table`, api.py:37-40); `gsiQuery` is the
`SeverityTimestampIndex` query of api.py:49-54 (severity and `Limit` as
passed; most-recent-first ordering is the index's contract); `gsiCount` is
the `Select='COUNT'` query of api.py:110-114; `table` is the primary
table's contents in scan order; `scanHealth` is whether `table.scan` works;
`getItem` is `table.get_item` (api.py:80). -/
structure ApiEnv where
  tableParam : Except String String
  gsiQuery : String → Nat → Except String (List ApiItem)
  gsiCount : String → Except String Nat
  table : List ApiItem
  scanHealth : Except String Unit
  getItem : String → Except String (Option ApiItem)
  nowIso : String

/-- `query_findings_by_severity` (api.py:42-74).  With a truthy severity, a
single GSI query capped at `limit`; otherwise a scan with `Limit=limit` and
a filter requiring the severity attribute to exist — DynamoDB applies
`Limit` to the items read before filtering, hence `take limit` then
`filter`.  A `ClientError` is re-raised (lines 72-74). -/
def query_findings_by_severity (env : ApiEnv) (severity : Option String)
    (limit : Nat) : Except String (List ApiItem) :=
  match env.tableParam with
  | .error e => .error e
  | .ok _table =>
    match severity with
    | some s =>
      if s == "" then
        match env.scanHealth with
        | .error e => .error e
        | .ok _ =>
          .ok ((env.table.take limit).filter (fun it => it.severity.isSome))
      else
        env.gsiQuery s limit
    | none =>
      match env.scanHealth with
      | .error e => .error e
      | .ok _ =>
        .ok ((env.table.take limit).filter (fun it => it.severity.isSome))

/-- `get_finding_by_id` (api.py:76-94). -/
def get_finding_by_id (env : ApiEnv) (finding_id : String) :
    Except String (Option ApiItem) :=
  match env.tableParam with
  | .error e => .error e
  | .ok _table => env.getItem finding_id

/-- The store operations `get_findings_summary` performs, in order. -/
inductive StoreOp where
  | countQuery (severity : String)
  | scan (limit : Nat)
  deriving Repr, DecidableEq

/-- The five known severities, in the order api.py:106 lists them. -/
def severities : List String :=
  ["CRITICAL", "HIGH", "MEDIUM", "LOW", "INFORMATIONAL"]

/-- The summary payload (api.py:137-141).  `severity_breakdown` is a Python
dict, modelled as its key/value pairs in insertion order. -/
structure SummaryOut where
  total_findings : Nat
  severity_breakdown : List (String × Nat)
  last_updated : String
  deriving Repr, DecidableEq

/-- `severity_counts[severity] = severity_counts.get(severity, 0) + 1`
(api.py:135) on an insertion-ordered dict. -/
def bumpCount (cs : List (String × Nat)) (k : String) : List (String × Nat) :=
  if cs.any (fun p => p.1 == k) then
    cs.map (fun p => if p.1 == k then (p.1, p.2 + 1) else p)
  else
    cs ++ [(k, 1)]

/-- One step of the per-severity loop (api.py:108-121): issue the COUNT
query; a `ClientError` for that severity is caught and skipped (lines
119-121); a positive count is recorded in the breakdown and added to the
total. -/
def summary_step (env : ApiEnv)
    (acc : List (String × Nat) × Nat × List StoreOp) (sev : String) :
    List (String × Nat) × Nat × List StoreOp :=
  let (counts, total, ops) := acc
  let ops := ops ++ [StoreOp.countQuery sev]
  match env.gsiCount sev with
  | .error _ => (counts, total, ops)
  | .ok c =>
    if c > 0 then (counts ++ [(sev, c)], total + c, ops)
    else (counts, total, ops)

/-- `get_findings_summary` (api.py:96-145): one COUNT query per severity,
summed; if the total is zero, fall back to a scan with `Limit=1000`
projecting only `severity` (lines 124-135), counting `item.get('severity',
'UNKNOWN')`; a `ClientError` from the scan is re-raised (lines 143-145).
Returns the payload together with the store operations performed. -/
def get_findings_summary (env : ApiEnv) :
    Except String (SummaryOut × List StoreOp) :=
  match env.tableParam with
  | .error e => .error e
  | .ok _table =>
    let acc := severities.foldl (summary_step env) ([], 0, [])
    let severity_counts := acc.1
    let total_findings := acc.2.1
    let ops := acc.2.2
    if total_findings == 0 then
      match env.scanHealth with
      | .error e => .error e
      | .ok _ =>
        let ops := ops ++ [StoreOp.scan 1000]
        let items := env.table.take 1000
        let total_findings := items.length
        let severity_counts := items.foldl
          (fun cs it => bumpCount cs (it.severity.getD "UNKNOWN"))
          severity_counts
        .ok ({ total_findings := total_findings,
               severity_breakdown := severity_counts,
               last_updated := env.nowIso }, ops)
    else
      .ok ({ total_findings := total_findings,
             severity_breakdown := severity_counts,
             last_updated := env.nowIso }, ops)

/-- The JSON envelope a handler response serializes (the key/value pairs
that occur across api.py:180-293; absent keys are `none`).  The constant
CORS headers of `create_response` (api.py:149-161) are not modelled. -/
inductive ApiData where
  | item (it : ApiItem)
  | items (l : List ApiItem)
  | summary (s : SummaryOut)
  deriving Repr, DecidableEq

structure ApiBody where
  success : Option Bool
  error : Option String
  message : Option String
  data : Option ApiData
  count : Option Nat
  status : Option String
  timestamp : Option String
  deriving Repr, DecidableEq

/-- An all-`none` body, to be filled per response site. -/
def emptyBody : ApiBody :=
  { success := none, error := none, message := none, data := none,
    count := none, status := none, timestamp := none }

/-- `create_response` (api.py:147-163), reduced to the fields the claims
observe. -/
structure ApiResponse where
  statusCode : Nat
  body : ApiBody
  deriving Repr, DecidableEq

def create_response (status_code : Nat) (body : ApiBody) : ApiResponse :=
  { statusCode := status_code, body := body }

/-- The API Gateway request fields `lambda_handler` reads (api.py:172-175);
a `None` `queryStringParameters` is already coalesced to the empty dict at
line 174. -/
structure ApiRequest where
  httpMethod : String
  path : String
  queryStringParameters : List (String × String)
  deriving Repr, DecidableEq

def lookupParam (qp : List (String × String)) (k : String) : Option String :=
  match qp.find? (fun p => p.1 == k) with
  | some p => some p.2
  | none => none

/-- Python `s.endswith(suffix)` (api.py:185, 246, 255). -/
def endswith_py (s suffix : String) : Bool :=
  suffix.toList.isSuffixOf s.toList

/-- Python `int(s)` on the text of a query parameter: optional surrounding
whitespace, an optional sign, then digits with single underscores allowed
strictly between digits; anything else raises `ValueError` (`none`). -/
def pyDigitsAux : Nat → List Char → Option Nat
  | acc, [] => some acc
  | acc, c :: rest =>
    if c.isDigit then pyDigitsAux (acc * 10 + (c.toNat - 48)) rest
    else if c == '_' then
      match rest with
      | d :: rest2 =>
        if d.isDigit then pyDigitsAux (acc * 10 + (d.toNat - 48)) rest2
        else none
      | [] => none
    else none

def pyDigits (cs : List Char) : Option Nat :=
  match cs with
  | [] => none
  | c :: _ => if c.isDigit then pyDigitsAux 0 cs else none

def int_py (s : String) : Option Int :=
  let cs :=
    ((s.toList.dropWhile Char.isWhitespace).reverse.dropWhile
      Char.isWhitespace).reverse
  match cs with
  | '+' :: rest => (pyDigits rest).map Int.ofNat
  | '-' :: rest => (pyDigits rest).map (fun n => -(n : Int))
  | _ => (pyDigits cs).map Int.ofNat

/-- The standard error bodies of the `/findings` route. -/
def invalidSeverityBody (t : String) : ApiBody :=
  { emptyBody with
    success := some false,
    error := some
      "Invalid severity. Must be one of: CRITICAL, HIGH, MEDIUM, LOW, INFORMATIONAL",
    timestamp := some t }

def invalidLimitBody (t : String) : ApiBody :=
  { emptyBody with
    success := some false,
    error := some "Invalid limit. Must be a number between 1 and 1000",
    timestamp := some t }

/-- The `/findings` route (api.py:185-244): validate `severity` (falsy
values skip the check, line 191), validate `limit` to [1, 1000] (lines
199-208; a non-numeric string raises `ValueError` inside the inner `try`,
caught at line 203), then either the by-id lookup (lines 210-234) or the
listing (lines 236-244). -/
def findings_route (env : ApiEnv) (qp : List (String × String)) :
    Except String ApiResponse :=
  let severity := lookupParam qp "severity"
  let limit_param := (lookupParam qp "limit").getD "100"
  let sevBad :=
    match severity with
    | some s => !(s == "") && !(severities.contains s)
    | none => false
  if sevBad then
    .ok (create_response 400 (invalidSeverityBody env.nowIso))
  else
    match int_py limit_param with
    | none => .ok (create_response 400 (invalidLimitBody env.nowIso))
    | some limit =>
      if limit < 1 || limit > 1000 then
        .ok (create_response 400 (invalidLimitBody env.nowIso))
      else
        match lookupParam qp "id" with
        | some finding_id =>
          if finding_id == "" || finding_id.length > 256 then
            .ok (create_response 400
              { emptyBody with
    success := some false,
                error := some "Invalid finding ID format",
                timestamp := some env.nowIso })
          else
            match get_finding_by_id env finding_id with
            | .error e => .error e
            | .ok (some finding) =>
              .ok (create_response 200
                { emptyBody with
    success := some true,
                  data := some (.item finding),
                  timestamp := some env.nowIso })
            | .ok none =>
              .ok (create_response 404
                { emptyBody with
    success := some false,
                  error := some "Finding not found",
                  timestamp := some env.nowIso })
        | none =>
          match query_findings_by_severity env severity limit.toNat with
          | .error e => .error e
          | .ok findings =>
            .ok (create_response 200
              { emptyBody with
    success := some true,
                data := some (.items findings),
                count := some findings.length,
                timestamp := some env.nowIso })

/-- The `try` body of `lambda_handler` (api.py:170-269): CORS preflight,
then the GET routes in order (`/findings`, `/summary`, `/health`), then the
405 fall-through (line 265). -/
def handler_body (env : ApiEnv) (req : ApiRequest) :
    Except String ApiResponse :=
  if req.httpMethod == "OPTIONS" then
    .ok (create_response 200
      { emptyBody with
    message := some "CORS preflight successful" })
  else if req.httpMethod == "GET" && endswith_py req.path "/findings" then
    findings_route env req.queryStringParameters
  else if req.httpMethod == "GET" && endswith_py req.path "/summary" then
    match get_findings_summary env with
    | .error e => .error e
    | .ok s =>
      .ok (create_response 200
        { emptyBody with
    success := some true, data := some (.summary s.1),
          timestamp := some env.nowIso })
  else if req.httpMethod == "GET" && endswith_py req.path "/health" then
    .ok (create_response 200
      { emptyBody with
    status := some "healthy",
        timestamp := some env.nowIso })
  else
    .ok (create_response 405
      { emptyBody with
    success := some false,
        error := some "Method not allowed", timestamp := some env.nowIso })

/-- `lambda_handler` (api.py:165-293).  Collaborator exceptions
(`ClientError` at lines 279-285 and the blanket handler at lines 287-293,
whose response bodies are identical) become a 500 whose `error` field is the
fixed string `'Internal server error'` — the internal exception detail is
logged, never placed in the body. -/
def lambda_handler (env : ApiEnv) (req : ApiRequest) : ApiResponse :=
  match handler_body env req with
  | .ok resp => resp
  | .error _ =>
    create_response 500
      { emptyBody with
    success := some false,
        error := some "Internal server error",
        timestamp := some env.nowIso }

end CSPM.Api

namespace CSPM

/-- The membership test a Python dict performs (`k in d`) agrees with
lookup. -/
theorem any_key_eq_isSome (kvs : List (String × PyVal)) (k : String) :
    (kvs.any (fun p => p.1 == k)) = (pyLookup kvs k).isSome := by
  induction kvs with
  | nil => rfl
  | cons p rest ih =>
    by_cases h : p.1 == k
    · simp [List.any_cons, h, pyLookup]
    · simp only [List.any_cons, pyLookup, h, if_neg, Bool.false_or, ih]
      simp [h]

/-- `eqStr` detects exactly the string constructor with that text. -/
theorem eqStr_iff (v : PyVal) (s : String) :
    v.eqStr s = true ↔ v = .str s := by
  cases v <;> simp [PyVal.eqStr]

/-- The five severity labels the system knows, as the spec's data model
lists them. -/
def knownSeverities : List String :=
  ["CRITICAL", "HIGH", "MEDIUM", "LOW", "INFORMATIONAL"]

end CSPM

namespace CSPM.Scanner

/-- Because `calculate_ttl_timestamp` always raises `NameError`,
`process_finding` returns `None` on every input. -/
theorem process_finding_none (nowIso : String) (ttlDays : Int)
    (finding : PyVal) : process_finding nowIso ttlDays finding = none := by
  unfold process_finding process_finding_core
  cases extract_fields finding <;> rfl

/-- One loop iteration only bumps `processed`. -/
theorem process_one_eq (env : ScanEnv) (st : LoopState) (f : PyVal) :
    process_one env st f = { st with processed := st.processed + 1 } := by
  unfold process_one
  rw [process_finding_none]

/-- The whole loop only counts. -/
theorem foldl_process_one (env : ScanEnv) (l : List PyVal) (st : LoopState) :
    l.foldl (process_one env) st =
      { st with processed := st.processed + l.length } := by
  induction l generalizing st with
  | nil => simp
  | cons f rest ih =>
    simp only [List.foldl_cons, process_one_eq, ih, List.length_cons]
    congr 1
    omega

/-- A workable environment: both SSM parameters resolve and every
`put_item` would succeed. -/
def scanEnvA : ScanEnv :=
  { tableParam := .ok "cspm-findings", topicParam := .ok "arn:aws:sns:alerts",
    putOk := fun _ => true, ttlDays := 90,
    nowIso := "2024-01-15T10:30:00+00:00" }

/-- **C3.**  In scanner.py as written, `process_finding` returns `None` for
every input finding whatsoever — `calculate_ttl_timestamp` references
`timedelta`, a name never imported in the module, and the broad exception
handler converts the `NameError` to `None` — so for every ingestion event
the handler's `findings_stored` count is 0 and no finding is ever written
to the store or alerted on. -/
theorem scanner_stores_nothing :
    (∀ (nowIso : String) (ttlDays : Int) (finding : PyVal),
        process_finding nowIso ttlDays finding = none) ∧
    (∀ (env : ScanEnv) (event : PyVal) (r : ScanResult),
        lambda_handler env event = .ok r →
          r.findings_stored = 0 ∧ r.puts = [] ∧ r.alerts = []) := by
  refine ⟨process_finding_none, ?_⟩
  intro env event r h
  unfold lambda_handler at h
  cases htp : env.tableParam with
  | error e => simp [htp] at h
  | ok tn =>
    simp only [htp] at h
    cases hef : extract_findings event with
    | error e => simp [hef] at h
    | ok fv =>
      simp only [hef] at h
      cases hit : fv.iter with
      | error e => simp [hit] at h
      | ok findings =>
        simp only [hit, foldl_process_one, Except.ok.injEq] at h
        subst h
        exact ⟨rfl, rfl, rfl⟩

/-- Witness: a concrete run (empty manual event, healthy collaborators)
reaches the success response and the theorem applies to it. -/
theorem scanner_stores_nothing_witness :
    lambda_handler scanEnvA (PyVal.dict []) =
      .ok { statusCode := 200, findings_processed := 0, findings_stored := 0,
            puts := [], alerts := [] } ∧
    ({ statusCode := 200, findings_processed := 0, findings_stored := 0,
       puts := [], alerts := [] } : ScanResult).findings_stored = 0 :=
  ⟨rfl,
   (scanner_stores_nothing.2 scanEnvA (PyVal.dict [])
     { statusCode := 200, findings_processed := 0, findings_stored := 0,
       puts := [], alerts := [] } rfl).1⟩

end CSPM.Scanner

namespace CSPM.Scanner

/-- The raw finding's identifier being absent, null, or the empty string
(the conditions the spec names as unrecoverable). -/
def idMissingB (finding : PyVal) : Bool :=
  match finding with
  | .dict kvs =>
    match pyLookup kvs "Id" with
    | none => true
    | some .pyNone => true
    | some (.str "") => true
    | some _ => false
  | _ => false

/-- The spec's scenario batch `[{Severity:{Label:"LOW"}}]` (no `Id`). -/
def lowSeverityFinding : PyVal :=
  .dict [("Severity", .dict [("Label", .str "LOW")])]

def lowBatchEvent : PyVal :=
  .dict [("findings", .list [lowSeverityFinding])]

/-- **C2.**  For every raw finding whose identifier field is absent, null,
or empty, normalization fails (returns `None` rather than a storable item),
and the pipeline counts it as processed but not stored; in particular the
one-element batch `[{Severity:{Label:"LOW"}}]` yields `processed = 1`,
`stored = 0` and no store write or alert.  (As written, this holds because
`process_finding` fails on *every* finding — the `timedelta` import is
missing — not through a dedicated identifier check; see the C3 theorem.) -/
theorem missing_id_never_stored :
    (∀ (nowIso : String) (ttlDays : Int) (finding : PyVal),
        idMissingB finding = true →
          process_finding nowIso ttlDays finding = none) ∧
    lambda_handler scanEnvA lowBatchEvent =
      .ok { statusCode := 200, findings_processed := 1, findings_stored := 0,
            puts := [], alerts := [] } :=
  ⟨fun nowIso ttlDays finding _ => process_finding_none nowIso ttlDays finding,
   rfl⟩

/-- Witness: the scenario finding does satisfy the missing-identifier
hypothesis, and the theorem applies to it. -/
theorem missing_id_never_stored_witness :
    idMissingB lowSeverityFinding = true ∧
    process_finding "2024-01-15T10:30:00+00:00" 90 lowSeverityFinding =
      none :=
  ⟨rfl,
   missing_id_never_stored.1 "2024-01-15T10:30:00+00:00" 90
     lowSeverityFinding rfl⟩

/-- **C6.**  (code_bug evidence.)  The claim says every normalized record's
`ttl_timestamp` is midnight UTC of the processing day plus the retention
days, in epoch seconds — which is what scanner.py:41-46 is written to
compute and what `tests/unit/test_scanner.py` asserts.  The code cannot do
this: `calculate_ttl_timestamp` raises `NameError` on every call (the
`timedelta` import is missing), so no record is ever normalized at all.
The second conjunct checks the intended formula on the unit tests' fixed
instant (2024-01-15 10:30:00 UTC, 30 days → 2024-02-14 00:00:00 UTC); the
third is the same-UTC-day bucketing the claim describes, for the
spec-modelled computation. -/
theorem ttl_not_computed_as_specified :
    (∀ d : Int, calculate_ttl_timestamp d =
        .error "NameError: name 'timedelta' is not defined") ∧
    calculate_ttl_timestamp_spec 1705314600 30 = 1707868800 ∧
    (∀ now1 now2 d : Nat, now1 / 86400 = now2 / 86400 →
        calculate_ttl_timestamp_spec now1 d =
          calculate_ttl_timestamp_spec now2 d) := by
  refine ⟨fun _ => rfl, by norm_num [calculate_ttl_timestamp_spec], ?_⟩
  intro now1 now2 d h
  unfold calculate_ttl_timestamp_spec
  rw [h]

/-- Witness: the NameError at the tests' own retention value, and two
instants of the same UTC day (midnight and 10:30) getting one expiry. -/
theorem ttl_not_computed_as_specified_witness :
    calculate_ttl_timestamp 30 =
      .error "NameError: name 'timedelta' is not defined" ∧
    1705276800 / 86400 = 1705314600 / 86400 ∧
    calculate_ttl_timestamp_spec 1705276800 30 =
      calculate_ttl_timestamp_spec 1705314600 30 :=
  ⟨ttl_not_computed_as_specified.1 30, by norm_num,
   ttl_not_computed_as_specified.2.2 1705276800 1705314600 30 (by norm_num)⟩

/-- A raw finding carrying a severity label outside the known enum. -/
def bananaFinding : PyVal :=
  .dict [("Id", .str "finding-1"),
         ("Severity", .dict [("Label", .str "Banana")])]

/-- A raw finding whose severity label is present but null. -/
def nullLabelFinding : PyVal :=
  .dict [("Id", .str "finding-2"),
         ("Severity", .dict [("Label", .pyNone)])]

/-- **C7.**  (code_bug evidence.)  The claim says every record the pipeline
writes has a severity among the five known values or UNKNOWN and never
null, regardless of the raw label.  As written the pipeline writes nothing
at all (first conjunct; the `timedelta` slip again), so the claim is only
vacuously true of it; and the record-construction logic itself — run with
the TTL computation repaired as the repository's unit tests assume —
passes the raw label through verbatim: a label `"Banana"` is stored as-is
(second and third conjuncts: it is none of the five known values and not
UNKNOWN), never mapped to UNKNOWN, and a null label yields a null severity
(fourth conjunct). -/
theorem stored_severity_unconstrained :
    process_finding "2024-01-15T10:30:00+00:00" 90 bananaFinding = none ∧
    (process_finding_spec 1705314600 90 "2024-01-15T10:30:00+00:00"
        bananaFinding).map Item.severity = some (.str "Banana") ∧
    ("Banana" ∉ CSPM.knownSeverities ∧ "Banana" ≠ "UNKNOWN") ∧
    (process_finding_spec 1705314600 90 "2024-01-15T10:30:00+00:00"
        nullLabelFinding).map Item.severity = some .pyNone := by
  exact ⟨process_finding_none _ _ _, rfl, by decide, rfl⟩

/-- **C9.**  The severity alerting policy of `send_alert`: an SNS publish
happens only for the severities CRITICAL and HIGH, and — whenever the
topic parameter resolves — for exactly those; every other severity value
(UNKNOWN, INFORMATIONAL, anything else) dispatches nothing, whatever the
environment. -/
theorem alert_iff_critical_or_high :
    ∀ (env : ScanEnv) (severity : PyVal) (message : String)
      (finding_id : PyVal),
      (¬(severity = .str "CRITICAL" ∨ severity = .str "HIGH") →
          send_alert env severity message finding_id = []) ∧
      (∀ topic, env.topicParam = .ok topic →
          (send_alert env severity message finding_id ≠ [] ↔
            (severity = .str "CRITICAL" ∨ severity = .str "HIGH"))) := by
  intro env severity message finding_id
  constructor
  · intro h
    unfold send_alert
    have hc : severity.eqStr "CRITICAL" = false := by
      rcases hb : severity.eqStr "CRITICAL" with _ | _
      · rfl
      · exact absurd (Or.inl ((CSPM.eqStr_iff severity "CRITICAL").mp hb)) h
    have hh : severity.eqStr "HIGH" = false := by
      rcases hb : severity.eqStr "HIGH" with _ | _
      · rfl
      · exact absurd (Or.inr ((CSPM.eqStr_iff severity "HIGH").mp hb)) h
    simp [hc, hh]
  · intro topic htopic
    unfold send_alert
    rw [htopic]
    constructor
    · intro hne
      by_contra h
      have hc : severity.eqStr "CRITICAL" = false := by
        rcases hb : severity.eqStr "CRITICAL" with _ | _
        · rfl
        · exact absurd (Or.inl ((CSPM.eqStr_iff severity "CRITICAL").mp hb)) h
      have hh : severity.eqStr "HIGH" = false := by
        rcases hb : severity.eqStr "HIGH" with _ | _
        · rfl
        · exact absurd (Or.inr ((CSPM.eqStr_iff severity "HIGH").mp hb)) h
      simp [hc, hh] at hne
    · intro h
      rcases h with h | h <;> subst h <;> simp [PyVal.eqStr]

/-- Witness: with a resolving topic, LOW and UNKNOWN dispatch nothing while
CRITICAL dispatches. -/
theorem alert_iff_critical_or_high_witness :
    send_alert scanEnvA (.str "LOW") "m" (.str "f") = [] ∧
    send_alert scanEnvA (.str "UNKNOWN") "m" (.str "f") = [] ∧
    send_alert scanEnvA (.str "CRITICAL") "m" (.str "f") ≠ [] := by
  refine ⟨?_, ?_, ?_⟩
  · exact (alert_iff_critical_or_high scanEnvA (.str "LOW") "m" (.str "f")).1
      (by simp)
  · exact (alert_iff_critical_or_high scanEnvA (.str "UNKNOWN") "m"
      (.str "f")).1 (by simp)
  · exact ((alert_iff_critical_or_high scanEnvA (.str "CRITICAL") "m"
      (.str "f")).2 "arn:aws:sns:alerts" rfl).mpr (Or.inl rfl)

end CSPM.Scanner

namespace CSPM.Scanner

/-- Shape (a)'s marker, as the code tests it (scanner.py:127):
`'source' in event and event['source'] == 'aws.securityhub'`. -/
def sourceMatches (kvs : List (String × PyVal)) : Bool :=
  match pyLookup kvs "source" with
  | some v => v.eqStr "aws.securityhub"
  | none => false

/-- A sub-message the record loop accepts (scanner.py:133):
`record.get('eventSource') == 'aws:sqs'`. -/
def isSqsRecord (r : PyVal) : Bool :=
  match r with
  | .dict kvs =>
    match pyLookup kvs "eventSource" with
    | some v => v.eqStr "aws:sqs"
    | none => false
  | _ => false

def isDict : PyVal → Bool
  | .dict _ => true
  | _ => false

/-- Every record is a dict (so that `record.get` is defined on it). -/
def allDicts (rs : List PyVal) : Bool :=
  rs.all isDict

theorem eqStr_getD_eventSource (kvs : List (String × PyVal)) :
    ((pyLookup kvs "eventSource").getD .pyNone).eqStr "aws:sqs" =
      isSqsRecord (.dict kvs) := by
  unfold isSqsRecord
  cases h : pyLookup kvs "eventSource" <;> simp [h, PyVal.eqStr]

/-- The record loop takes the findings of the *first record whose
`eventSource` is `aws:sqs`*, skipping records with any other source
marker. -/
theorem findings_from_records_first_sqs (rs : List PyVal)
    (rkvs bkvs dkvs : List (String × PyVal)) (fv : PyVal)
    (hd : allDicts rs = true)
    (hf : rs.find? isSqsRecord = some (.dict rkvs))
    (hb : pyLookup rkvs "body" = some (.jsonStr (.dict bkvs)))
    (hdet : pyLookup bkvs "detail" = some (.dict dkvs))
    (hfind : pyLookup dkvs "findings" = some fv) :
    findings_from_records rs = .ok fv := by
  induction rs with
  | nil => simp [List.find?] at hf
  | cons r rest ih =>
    have hd1 : isDict r = true ∧ allDicts rest = true := by
      simpa [allDicts, List.all_cons] using hd
    obtain ⟨hr, hdrest⟩ := hd1
    cases r with
    | dict kvs0 =>
      rw [List.find?] at hf
      cases hsqs : isSqsRecord (.dict kvs0) with
      | false =>
        rw [hsqs] at hf
        simp only [findings_from_records, PyVal.get, Except.ok.injEq]
        rw [eqStr_getD_eventSource, hsqs]
        exact ih hdrest hf
      | true =>
        rw [hsqs] at hf
        simp only [Option.some.injEq] at hf
        injection hf with hkv
        subst hkv
        simp only [findings_from_records, PyVal.get]
        rw [eqStr_getD_eventSource, hsqs]
        simp [PyVal.sub, hb, json_loads, PyVal.get, hdet, hfind]
    | pyNone => simp [isDict] at hr
    | str s => simp [isDict] at hr
    | int n => simp [isDict] at hr
    | list l => simp [isDict] at hr
    | jsonStr v => simp [isDict] at hr

/-- With no `aws:sqs` record, the loop's `else` clause yields `[]`. -/
theorem findings_from_records_no_sqs (rs : List PyVal)
    (hd : allDicts rs = true)
    (hf : rs.find? isSqsRecord = none) :
    findings_from_records rs = .ok (.list []) := by
  induction rs with
  | nil => rfl
  | cons r rest ih =>
    have hd1 : isDict r = true ∧ allDicts rest = true := by
      simpa [allDicts, List.all_cons] using hd
    obtain ⟨hr, hdrest⟩ := hd1
    rw [List.find?] at hf
    cases r with
    | dict kvs0 =>
      cases hsqs : isSqsRecord (.dict kvs0) with
      | false =>
        rw [hsqs] at hf
        simp only [findings_from_records, PyVal.get]
        rw [eqStr_getD_eventSource, hsqs]
        exact ih hdrest hf
      | true => rw [hsqs] at hf; cases hf
    | pyNone => simp [isDict] at hr
    | str s => simp [isDict] at hr
    | int n => simp [isDict] at hr
    | list l => simp [isDict] at hr
    | jsonStr v => simp [isDict] at hr

end CSPM.Scanner

namespace CSPM.Scanner

/-- Findings planted in different sub-messages, to tell apart which one the
dispatch picked. -/
def snsFinding : PyVal := .dict [("Id", .str "finding-in-first-submessage")]

def sqsFinding : PyVal := .dict [("Id", .str "finding-in-sqs-submessage")]

def hubFinding : PyVal := .dict [("Id", .str "finding-in-detail")]

/-- An event whose first sub-message is a non-SQS record carrying a
findings list, followed by an SQS record carrying a different one. -/
def mixedRecordsKvs : List (String × PyVal) :=
  [("Records", .list
    [ .dict [("eventSource", .str "aws:sns"),
             ("body", .jsonStr (.dict [("detail",
                .dict [("findings", .list [snsFinding])])]))],
      .dict [("eventSource", .str "aws:sqs"),
             ("body", .jsonStr (.dict [("detail",
                .dict [("findings", .list [sqsFinding])])]))] ])]

def mixedRecordsEvent : PyVal := .dict mixedRecordsKvs

/-- An event matching none of the three claimed shapes (it is marked as a
Security Hub event but carries no findings list — its `detail` is a bare
number). -/
def badDetailEvent : PyVal :=
  .dict [("source", .str "aws.securityhub"), ("detail", .int 5)]

/-- **C4 counterexample.**  The claim as stated fails twice over.  (1) For
an event wrapping sub-messages, the code does *not* take the first
sub-message's findings list: with a non-SQS first sub-message and an SQS
second one, it takes the second's.  (2) An event matching none of the
claimed shapes need not yield an empty findings list: an event marked
`source = aws.securityhub` whose `detail` is not a mapping raises
`AttributeError` (propagated out of the handler), rather than processing
zero findings. -/
theorem event_dispatch_cex :
    extract_findings mixedRecordsEvent = .ok (.list [sqsFinding]) ∧
    sqsFinding ≠ snsFinding ∧
    extract_findings badDetailEvent =
      .error "AttributeError: object has no attribute get" := by
  refine ⟨rfl, ?_, rfl⟩
  simp [sqsFinding, snsFinding]

/-- **C4 (amended).**  The dispatch accepts three shapes, checked in order
by their markers: (a) an event whose `source` is `aws.securityhub` yields
its `detail`'s findings list (regardless of any `Records` or `findings`
keys also present); (b) otherwise an event carrying `Records` yields the
findings carried by the *first sub-message whose `eventSource` is
`aws:sqs`* — sub-messages with other source markers are skipped, never
unioned — or the empty list when no sub-message matches; (c) otherwise the
event's own `findings` list is used; and an event (a mapping) carrying
none of the three markers yields the empty findings list — the run
succeeds with `processed = 0`, `stored = 0`, not an error.  (Events whose
marked payload is malformed can still raise; see the counterexample.) -/
theorem event_shape_dispatch :
    (∀ (kvs dkvs : List (String × PyVal)) (fv : PyVal),
        pyLookup kvs "source" = some (.str "aws.securityhub") →
        pyLookup kvs "detail" = some (.dict dkvs) →
        pyLookup dkvs "findings" = some fv →
        extract_findings (.dict kvs) = .ok fv) ∧
    (∀ (kvs : List (String × PyVal)) (rs : List PyVal)
        (rkvs bkvs dkvs : List (String × PyVal)) (fv : PyVal),
        sourceMatches kvs = false →
        pyLookup kvs "Records" = some (.list rs) →
        allDicts rs = true →
        rs.find? isSqsRecord = some (.dict rkvs) →
        pyLookup rkvs "body" = some (.jsonStr (.dict bkvs)) →
        pyLookup bkvs "detail" = some (.dict dkvs) →
        pyLookup dkvs "findings" = some fv →
        extract_findings (.dict kvs) = .ok fv) ∧
    (∀ (kvs : List (String × PyVal)) (rs : List PyVal),
        sourceMatches kvs = false →
        pyLookup kvs "Records" = some (.list rs) →
        allDicts rs = true →
        rs.find? isSqsRecord = none →
        extract_findings (.dict kvs) = .ok (.list [])) ∧
    (∀ (kvs : List (String × PyVal)) (fv : PyVal),
        sourceMatches kvs = false →
        pyLookup kvs "Records" = none →
        pyLookup kvs "findings" = some fv →
        extract_findings (.dict kvs) = .ok fv) ∧
    (∀ (kvs : List (String × PyVal)),
        sourceMatches kvs = false →
        pyLookup kvs "Records" = none →
        pyLookup kvs "findings" = none →
        extract_findings (.dict kvs) = .ok (.list []) ∧
        (∀ (env : ScanEnv) (tn : String), env.tableParam = .ok tn →
          lambda_handler env (.dict kvs) =
            .ok { statusCode := 200, findings_processed := 0,
                  findings_stored := 0, puts := [], alerts := [] })) := by
  refine ⟨?_, ?_, ?_, ?_, ?_⟩
  · intro kvs dkvs fv h1 h2 h3
    unfold extract_findings
    simp [pyContains, any_key_eq_isSome, h1, PyVal.sub, PyVal.eqStr,
      PyVal.get, h2, h3]
  · intro kvs rs rkvs bkvs dkvs fv hsrc hrec hd hf hb hdet hfind
    have hff :=
      findings_from_records_first_sqs rs rkvs bkvs dkvs fv hd hf hb hdet hfind
    unfold extract_findings
    unfold sourceMatches at hsrc
    cases hs : pyLookup kvs "source" with
    | none =>
      simp [pyContains, any_key_eq_isSome, hs, hrec, PyVal.sub, PyVal.iter,
        hff]
    | some v =>
      rw [hs] at hsrc
      simp only [] at hsrc
      simp [pyContains, any_key_eq_isSome, hs, hsrc, hrec, PyVal.sub,
        PyVal.iter, hff]
  · intro kvs rs hsrc hrec hd hf
    have hff := findings_from_records_no_sqs rs hd hf
    unfold extract_findings
    unfold sourceMatches at hsrc
    cases hs : pyLookup kvs "source" with
    | none =>
      simp [pyContains, any_key_eq_isSome, hs, hrec, PyVal.sub, PyVal.iter,
        hff]
    | some v =>
      rw [hs] at hsrc
      simp only [] at hsrc
      simp [pyContains, any_key_eq_isSome, hs, hsrc, hrec, PyVal.sub,
        PyVal.iter, hff]
  · intro kvs fv hsrc hrec hfind
    unfold extract_findings
    unfold sourceMatches at hsrc
    cases hs : pyLookup kvs "source" with
    | none =>
      simp [pyContains, any_key_eq_isSome, hs, hrec, PyVal.get, hfind]
    | some v =>
      rw [hs] at hsrc
      simp only [] at hsrc
      simp [pyContains, any_key_eq_isSome, hs, hsrc, hrec, PyVal.sub,
        PyVal.get, hfind]
  · intro kvs hsrc hrec hfind
    have hex : extract_findings (.dict kvs) = .ok (.list []) := by
      unfold extract_findings
      unfold sourceMatches at hsrc
      cases hs : pyLookup kvs "source" with
      | none =>
        simp [pyContains, any_key_eq_isSome, hs, hrec, PyVal.get, hfind]
      | some v =>
        rw [hs] at hsrc
        simp only [] at hsrc
        simp [pyContains, any_key_eq_isSome, hs, hsrc, hrec, PyVal.sub,
          PyVal.get, hfind]
    refine ⟨hex, ?_⟩
    intro env tn htable
    unfold lambda_handler
    rw [htable, hex]
    rfl

/-- Witness: every clause of the dispatch theorem, exercised at concrete
events — a Security Hub event (with decoy keys), the mixed-records event,
an SNS-only records event, a direct-findings event, and an unmarked empty
event run end-to-end through a live environment. -/
theorem event_shape_dispatch_witness :
    extract_findings (.dict
      [("source", .str "aws.securityhub"),
       ("detail", .dict [("findings", .list [hubFinding])]),
       ("findings", .list [snsFinding])]) = .ok (.list [hubFinding]) ∧
    extract_findings mixedRecordsEvent = .ok (.list [sqsFinding]) ∧
    extract_findings (.dict
      [("Records", .list [.dict [("eventSource", .str "aws:sns")]])]) =
      .ok (.list []) ∧
    extract_findings (.dict [("findings", .list [snsFinding])]) =
      .ok (.list [snsFinding]) ∧
    lambda_handler scanEnvA (.dict [("detail-type", .str "ping")]) =
      .ok { statusCode := 200, findings_processed := 0,
            findings_stored := 0, puts := [], alerts := [] } := by
  refine ⟨?_, ?_, ?_, ?_, ?_⟩
  · exact event_shape_dispatch.1
      [("source", .str "aws.securityhub"),
       ("detail", .dict [("findings", .list [hubFinding])]),
       ("findings", .list [snsFinding])]
      [("findings", .list [hubFinding])] (.list [hubFinding]) rfl rfl rfl
  · exact event_shape_dispatch.2.1 mixedRecordsKvs _
      [("eventSource", .str "aws:sqs"),
       ("body", .jsonStr (.dict [("detail",
          .dict [("findings", .list [sqsFinding])])]))]
      [("detail", .dict [("findings", .list [sqsFinding])])]
      [("findings", .list [sqsFinding])] (.list [sqsFinding])
      rfl rfl rfl rfl rfl rfl rfl
  · exact event_shape_dispatch.2.2.1
      [("Records", .list [.dict [("eventSource", .str "aws:sns")]])]
      [.dict [("eventSource", .str "aws:sns")]] rfl rfl rfl rfl
  · exact event_shape_dispatch.2.2.2.1
      [("findings", .list [snsFinding])] (.list [snsFinding]) rfl rfl rfl
  · exact (event_shape_dispatch.2.2.2.2
      [("detail-type", .str "ping")] rfl rfl rfl).2 scanEnvA
      "cspm-findings" rfl

end CSPM.Scanner

namespace CSPM.Archiver

/-- `cutoff = now - retention_days` in epoch seconds (archiver.py:155-156). -/
def cutoffOf (env : ArchEnv) : Int :=
  env.nowEpoch - env.retention_days * 86400

/-- The expired set a run finds: the scan filter of archiver.py:46. -/
def expiredOf (env : ArchEnv) : List ArcItem :=
  env.table.filter (fun it => it.ttl_timestamp < cutoffOf env)

theorem handler_eq_fail_tp (env : ArchEnv) (e : String)
    (h : env.tableParam = .error e) :
    lambda_handler env = archiver_fail e [] [] := by
  unfold lambda_handler
  rw [h]

theorem handler_eq_fail_scan (env : ArchEnv) (tn e : String)
    (h1 : env.tableParam = .ok tn) (h2 : env.scanHealth = .error e) :
    lambda_handler env = archiver_fail e [] [] := by
  unfold lambda_handler get_expired_findings
  rw [h1, h2]

theorem get_expired_eq (env : ArchEnv) (h2 : env.scanHealth = .ok ()) :
    get_expired_findings env (cutoffOf env) = .ok (expiredOf env) := by
  unfold get_expired_findings
  rw [h2]
  rfl

end CSPM.Archiver

namespace CSPM.Archiver

/-- **C1.**  The archiver's two-phase gate.  (1) If a run deleted anything
from the primary store, then the bucket was configured and the single S3
`put_object` succeeded and carried the *entire* found set — no record is
deleted that was not durably archived.  (2) For a run that finds a
non-empty expired set, if the archive phase returned fewer than all found
records, the run returns a 500 reporting zero deletions and deletes
nothing.  (3) If the archive phase raised instead, the run is a 500 that
deletes nothing.  (4) Whenever the response reports the three counts,
`deleted ≤ archived ≤ processed`. -/
theorem archiver_two_phase_gate (env : ArchEnv) :
    ((lambda_handler env).deletedIds ≠ [] →
      env.bucket ≠ "" ∧ env.s3Put = .ok () ∧
      (lambda_handler env).s3Writes =
        [{ finding_count := (expiredOf env).length,
           retention_days := env.retention_days }]) ∧
    (∀ (tn : String) (a : Nat) (ws : List S3Write),
      env.tableParam = .ok tn → env.scanHealth = .ok () →
      expiredOf env ≠ [] →
      archive_findings_to_s3 env (expiredOf env) env.bucket = .ok (a, ws) →
      a < (expiredOf env).length →
      (lambda_handler env).statusCode = 500 ∧
      (lambda_handler env).findings_deleted = some 0 ∧
      (lambda_handler env).deletedIds = []) ∧
    (∀ (tn e : String),
      env.tableParam = .ok tn → env.scanHealth = .ok () →
      expiredOf env ≠ [] →
      archive_findings_to_s3 env (expiredOf env) env.bucket = .error e →
      (lambda_handler env).statusCode = 500 ∧
      (lambda_handler env).deletedIds = []) ∧
    (∀ (p a dc : Nat),
      (lambda_handler env).findings_processed = some p →
      (lambda_handler env).findings_archived = some a →
      (lambda_handler env).findings_deleted = some dc →
      dc ≤ a ∧ a ≤ p) := by
  unfold lambda_handler get_expired_findings
  cases h1 : env.tableParam with
  | error e =>
    refine ⟨fun h => absurd rfl h, ?_, ?_, ?_⟩
    · intro tn a ws htn
      cases htn
    · intro tn e2 htn
      cases htn
    · intro p a dc hp
      cases hp
  | ok tn =>
    cases h2 : env.scanHealth with
    | error e =>
      refine ⟨fun h => absurd rfl h, ?_, ?_, ?_⟩
      · intro tn2 a ws _ hsc
        cases hsc
      · intro tn2 e2 _ hsc
        cases hsc
      · intro p a dc hp
        cases hp
    | ok u =>
      cases u
      simp only []
      have hexp : env.table.filter
          (fun it => it.ttl_timestamp <
            env.nowEpoch - env.retention_days * 86400) = expiredOf env := rfl
      rw [hexp]
      cases hemp : (expiredOf env).isEmpty with
      | true =>
        have hnil : expiredOf env = [] := by
          cases hl : expiredOf env with
          | nil => rfl
          | cons x xs => rw [hl] at hemp; cases hemp
        simp only [eq_self_iff_true, if_true]
        refine ⟨fun h => absurd rfl h, ?_, ?_, ?_⟩
        · intro tn2 a ws _ _ hne
          exact absurd hnil hne
        · intro tn2 e2 _ _ hne
          exact absurd hnil hne
        · intro p a dc hp ha hd
          cases hp; cases ha; cases hd
          exact ⟨Nat.le_refl 0, Nat.le_refl 0⟩
      | false =>
        have hne : expiredOf env ≠ [] := by
          intro hl
          rw [hl] at hemp
          cases hemp
        have hlen : (expiredOf env).length ≠ 0 := by
          intro hl
          exact hne (List.length_eq_zero.mp hl)
        simp only [Bool.false_eq_true, if_false]
        unfold archive_findings_to_s3
        cases hb : env.bucket == "" with
        | true =>
          simp only [eq_self_iff_true, if_true]
          have hbeq : ((0 : Nat) == (expiredOf env).length) = false := by
            cases hl : (expiredOf env).length with
            | zero => exact absurd hl hlen
            | succ m => rfl
          rw [hbeq]
          simp only [Bool.false_eq_true, if_false]
          refine ⟨fun h => absurd rfl h, ?_, ?_, ?_⟩
          · intro tn2 a ws _ _ _ hok _
            cases hok
            exact ⟨by trivial, by trivial, by trivial⟩
          · intro tn2 e2 _ _ _ herr
            cases herr
          · intro p a dc hp ha hd
            cases hp; cases ha; cases hd
            exact ⟨Nat.le_refl 0, Nat.zero_le _⟩
        | false =>
          simp only [Bool.false_eq_true, if_false]
          cases hs3 : env.s3Put with
          | error e =>
            refine ⟨fun h => absurd rfl h, ?_, ?_, ?_⟩
            · intro tn2 a ws _ _ _ hok _
              cases hok
            · intro tn2 e2 _ _ _ _
              exact ⟨by trivial, by trivial⟩
            · intro p a dc hp
              cases hp
          | ok u2 =>
            cases u2
            simp only [beq_self_eq_true, eq_self_iff_true, if_true]
            unfold delete_archived_findings
            cases hdel : env.deleteOutcome with
            | error me =>
              refine ⟨?_, ?_, ?_, ?_⟩
              · intro _
                refine ⟨?_, by trivial, by trivial⟩
                intro hbe
                rw [hbe] at hb
                cases hb
              · intro tn2 a ws _ _ _ hok hlt
                cases hok
                exact absurd hlt (by omega)
              · intro tn2 e2 _ _ _ herr
                cases herr
              · intro p a dc hp
                cases hp
            | ok u3 =>
              cases u3
              simp only [beq_self_eq_true, eq_self_iff_true, if_true]
              refine ⟨?_, ?_, ?_, ?_⟩
              · intro _
                refine ⟨?_, by trivial, by trivial⟩
                intro hbe
                rw [hbe] at hb
                cases hb
              · intro tn2 a ws _ _ _ hok hlt
                cases hok
                exact absurd hlt (by omega)
              · intro tn2 e2 _ _ _ herr
                cases herr
              · intro p a dc hp ha hd
                cases hp; cases ha; cases hd
                exact ⟨Nat.le_refl _, Nat.le_refl _⟩

end CSPM.Archiver

namespace CSPM.Archiver

/-- A healthy archival run: two expired records, one recent one. -/
def archEnvOk : ArchEnv :=
  { tableParam := .ok "cspm-findings",
    table := [{ id := "old-1", ttl_timestamp := 100 },
              { id := "old-2", ttl_timestamp := 200 },
              { id := "recent-1", ttl_timestamp := 9999999999 }],
    scanHealth := .ok (), bucket := "archive-bucket", s3Put := .ok (),
    deleteOutcome := .ok (), retention_days := 90, nowEpoch := 1705314600,
    nowIso := "2024-01-15T10:30:00+00:00" }

/-- The same run with `S3_ARCHIVE_BUCKET` unset, so the archive phase
writes 0 of the 2 found records. -/
def archEnvNoBucket : ArchEnv := { archEnvOk with bucket := "" }

/-- Witness: the gate theorem applied to a run that deletes (full archive
first) and to a run whose archive phase wrote fewer than all found records
(500, zero deletions), plus the count inequalities on the successful run's
reported counts. -/
theorem archiver_two_phase_gate_witness :
    (archEnvOk.bucket ≠ "" ∧ archEnvOk.s3Put = .ok () ∧
      (lambda_handler archEnvOk).s3Writes =
        [{ finding_count := 2, retention_days := 90 }]) ∧
    ((lambda_handler archEnvNoBucket).statusCode = 500 ∧
      (lambda_handler archEnvNoBucket).findings_deleted = some 0 ∧
      (lambda_handler archEnvNoBucket).deletedIds = []) ∧
    (2 ≤ 2 ∧ 2 ≤ 2) := by
  refine ⟨?_, ?_, ?_⟩
  · exact (archiver_two_phase_gate archEnvOk).1 (by decide)
  · exact (archiver_two_phase_gate archEnvNoBucket).2.1 "cspm-findings" 0 []
      rfl rfl (by decide) rfl (by decide)
  · exact (archiver_two_phase_gate archEnvOk).2.2.2 2 2 2 rfl rfl rfl

/-- An archiver run whose very first collaborator call (the SSM parameter
lookup) raises a `ClientError` carrying the text `d`. -/
def archFailEnv (d : String) : ArchEnv :=
  { tableParam := .error d, table := [], scanHealth := .ok (), bucket := "",
    s3Put := .ok (), deleteOutcome := .ok (), retention_days := 90,
    nowEpoch := 1705314600, nowIso := "2024-01-15T10:30:00+00:00" }

end CSPM.Archiver

namespace CSPM.Api

/-- The count one severity contributes: the COUNT query's result, a
per-severity `ClientError` contributing nothing (api.py:115-121). -/
def effCount (env : ApiEnv) (sev : String) : Nat :=
  match env.gsiCount sev with
  | .ok c => c
  | .error _ => 0

def sumCounts (env : ApiEnv) (l : List String) : Nat :=
  (l.map (effCount env)).sum

theorem summary_foldl (env : ApiEnv) (l : List String)
    (cs : List (String × Nat)) (t : Nat) (ops : List StoreOp) :
    l.foldl (summary_step env) (cs, t, ops) =
      (cs ++ (l.map (fun s => (s, effCount env s))).filter
          (fun p => 0 < p.2),
       t + sumCounts env l, ops ++ l.map StoreOp.countQuery) := by
  induction l generalizing cs t ops with
  | nil => simp [sumCounts]
  | cons s rest ih =>
    simp only [List.foldl_cons, summary_step]
    cases h : env.gsiCount s with
    | error e =>
      simp only []
      rw [ih]
      simp [effCount, h, sumCounts, List.filter_cons, List.append_assoc]
    | ok c =>
      simp only []
      by_cases hc : c > 0
      · rw [if_pos hc, ih]
        simp [effCount, h, sumCounts, List.filter_cons, hc,
          List.append_assoc, Nat.add_assoc]
      · have hc0 : c = 0 := by omega
        subst hc0
        rw [if_neg hc, ih]
        simp [effCount, h, sumCounts, List.filter_cons, List.append_assoc]

end CSPM.Api

namespace CSPM.Api

/-- **C5 counterexample.**  The claim says callers can distinguish a
genuine zero-findings store from the index-unavailable fallback.  They
cannot: a healthy empty store (all five COUNT queries answer 0) and a
store whose severity index raises `ClientError` on every COUNT query (over
an empty scan) return byte-identical summary payloads — the response
carries no marker of the fallback. -/
def apiEnvHealthyEmpty : ApiEnv :=
  { tableParam := .ok "cspm-findings", gsiQuery := fun _ _ => .ok [],
    gsiCount := fun _ => .ok 0, table := [], scanHealth := .ok (),
    getItem := fun _ => .ok none, nowIso := "2024-01-15T10:30:00+00:00" }

def apiEnvIndexDown : ApiEnv :=
  { apiEnvHealthyEmpty with gsiCount := fun _ => .error "GSI unavailable" }

theorem summary_not_distinguishable_cex :
    (get_findings_summary apiEnvHealthyEmpty).map (fun p => p.1) =
      .ok { total_findings := 0, severity_breakdown := [],
            last_updated := "2024-01-15T10:30:00+00:00" } ∧
    (get_findings_summary apiEnvIndexDown).map (fun p => p.1) =
      .ok { total_findings := 0, severity_breakdown := [],
            last_updated := "2024-01-15T10:30:00+00:00" } :=
  ⟨rfl, rfl⟩

/-- **C5 (amended).**  `summary()` issues one count-only indexed query per
each of the five known severities and sums them for the total; when and
only when all five counts come back zero (a per-severity `ClientError`
counting as zero) it falls back to a scan bounded by a hard cap of 1000
items projecting the severity field; the returned payload does *not* let
the caller distinguish a genuine zero-findings store from the fallback
(see the counterexample theorem). -/
theorem summary_count_then_capped_fallback :
    ∀ (env : ApiEnv) (out : SummaryOut) (ops : List StoreOp),
      get_findings_summary env = .ok (out, ops) →
        (∀ sev ∈ severities, StoreOp.countQuery sev ∈ ops) ∧
        (sumCounts env severities ≠ 0 →
          out.total_findings = sumCounts env severities ∧
          StoreOp.scan 1000 ∉ ops) ∧
        (sumCounts env severities = 0 →
          StoreOp.scan 1000 ∈ ops ∧
          out.total_findings = (env.table.take 1000).length ∧
          out.total_findings ≤ 1000) := by
  intro env out ops h
  unfold get_findings_summary at h
  cases htp : env.tableParam with
  | error e => rw [htp] at h; cases h
  | ok tn =>
    rw [htp] at h
    simp only [] at h
    rw [summary_foldl] at h
    simp only [List.nil_append, Nat.zero_add] at h
    by_cases hz : sumCounts env severities = 0
    · rw [hz] at h
      cases hscan : env.scanHealth with
      | error e =>
        rw [hscan] at h
        simp only [beq_self_eq_true, if_true] at h
        cases h
      | ok u =>
        cases u
        rw [hscan] at h
        simp only [beq_self_eq_true, if_true] at h
        simp only [Except.ok.injEq, Prod.mk.injEq] at h
        obtain ⟨hout, hops⟩ := h
        subst hout
        subst hops
        refine ⟨?_, ?_, ?_⟩
        · intro sev hsev
          exact List.mem_append_left _ (List.mem_map_of_mem _ hsev)
        · intro hnz
          exact absurd hz hnz
        · intro _
          refine ⟨List.mem_append_right _ (List.mem_singleton.mpr rfl),
            rfl, ?_⟩
          rw [List.length_take]
          exact min_le_left _ _
    · have hbeq : (sumCounts env severities == 0) = false := by
        cases hc : sumCounts env severities with
        | zero => exact absurd hc hz
        | succ m => rfl
      rw [hbeq] at h
      simp only [Bool.false_eq_true, if_false] at h
      simp only [Except.ok.injEq, Prod.mk.injEq] at h
      obtain ⟨hout, hops⟩ := h
      subst hout
      subst hops
      refine ⟨?_, ?_, ?_⟩
      · intro sev hsev
        exact List.mem_map_of_mem _ hsev
      · intro _
        refine ⟨rfl, ?_⟩
        intro hmem
        obtain ⟨sev, _, habs⟩ := List.mem_map.mp hmem
        cases habs
      · intro hzz
        exact absurd hzz hz

end CSPM.Api

namespace CSPM.Api

/-- A store answering the spec's sample per-severity counts 5/10/20/15/8. -/
def apiEnvCounts : ApiEnv :=
  { apiEnvHealthyEmpty with
      gsiCount := fun sev =>
        if sev == "CRITICAL" then .ok 5
        else if sev == "HIGH" then .ok 10
        else if sev == "MEDIUM" then .ok 20
        else if sev == "LOW" then .ok 15
        else .ok 8 }

def countsOut : SummaryOut :=
  { total_findings := 58,
    severity_breakdown := [("CRITICAL", 5), ("HIGH", 10), ("MEDIUM", 20),
      ("LOW", 15), ("INFORMATIONAL", 8)],
    last_updated := "2024-01-15T10:30:00+00:00" }

def countsOps : List StoreOp := severities.map StoreOp.countQuery

def emptyOut : SummaryOut :=
  { total_findings := 0, severity_breakdown := [],
    last_updated := "2024-01-15T10:30:00+00:00" }

def emptyOps : List StoreOp :=
  severities.map StoreOp.countQuery ++ [StoreOp.scan 1000]

/-- Witness: the summary theorem applied to a store with counts
5/10/20/15/8 (total 58, no fallback scan) and to an empty store (all
counts zero, fallback scan issued). -/
theorem summary_count_then_capped_fallback_witness :
    (countsOut.total_findings = sumCounts apiEnvCounts severities ∧
      StoreOp.scan 1000 ∉ countsOps) ∧
    (StoreOp.scan 1000 ∈ emptyOps ∧ emptyOut.total_findings ≤ 1000) := by
  refine ⟨⟨?_, ?_⟩, ?_, ?_⟩
  · exact ((summary_count_then_capped_fallback apiEnvCounts countsOut
      countsOps rfl).2.1 (by decide)).1
  · exact ((summary_count_then_capped_fallback apiEnvCounts countsOut
      countsOps rfl).2.1 (by decide)).2
  · exact ((summary_count_then_capped_fallback apiEnvHealthyEmpty emptyOut
      emptyOps rfl).2.2 rfl).1
  · exact ((summary_count_then_capped_fallback apiEnvHealthyEmpty emptyOut
      emptyOps rfl).2.2 rfl).2.2

end CSPM.Api

namespace CSPM.Api

/-- A GET request to the `/findings` route with the given query
parameters. -/
def findingsReq (qp : List (String × String)) : ApiRequest :=
  { httpMethod := "GET", path := "/findings", queryStringParameters := qp }

/-- **C8.**  Query limit validation at the request boundary: every `limit`
outside [1, 1000] — non-numeric strings included — yields the 400
invalid-limit response whatever the collaborators would have answered (no
silent clamping: the store is never consulted); and `limit=1` and
`limit=1000` are accepted, the request proceeding to a store query issued
with exactly that limit and answered with 200. -/
theorem limit_boundary_validation :
    (∀ (env : ApiEnv) (s : String),
      (int_py s = none ∨ ∃ l, int_py s = some l ∧ (l < 1 ∨ 1000 < l)) →
      lambda_handler env (findingsReq [("limit", s)]) =
        create_response 400 (invalidLimitBody env.nowIso)) ∧
    (∀ (env : ApiEnv) (tn : String) (items : List ApiItem),
      env.tableParam = .ok tn → env.gsiQuery "CRITICAL" 1 = .ok items →
      lambda_handler env
          (findingsReq [("severity", "CRITICAL"), ("limit", "1")]) =
        create_response 200
          { emptyBody with
              success := some true, data := some (.items items),
              count := some items.length, timestamp := some env.nowIso }) ∧
    (∀ (env : ApiEnv) (tn : String) (items : List ApiItem),
      env.tableParam = .ok tn → env.gsiQuery "CRITICAL" 1000 = .ok items →
      lambda_handler env
          (findingsReq [("severity", "CRITICAL"), ("limit", "1000")]) =
        create_response 200
          { emptyBody with
              success := some true, data := some (.items items),
              count := some items.length, timestamp := some env.nowIso }) := by
  refine ⟨?_, ?_, ?_⟩
  · intro env s hbad
    unfold lambda_handler handler_body findings_route
    have hm1 : (("GET" : String) == "OPTIONS") = false := rfl
    have hm2 : ("GET" == "GET" && endswith_py "/findings" "/findings") = true :=
      rfl
    have hsev : lookupParam [("limit", s)] "severity" = none := rfl
    have hlim : lookupParam [("limit", s)] "limit" = some s := rfl
    simp only [findingsReq, hm1, hm2, Bool.false_eq_true, if_false, if_true,
      hsev, hlim, Option.getD_some]
    rcases hbad with hnone | ⟨l, hsome, hrange⟩
    · rw [hnone]
    · rw [hsome]
      have hcond : (decide (l < 1) || decide (l > 1000)) = true := by
        rcases hrange with h | h <;> simp [h]
      simp only [hcond, if_true]
  · intro env tn items htable hq
    unfold lambda_handler handler_body findings_route
      query_findings_by_severity
    have hm1 : (("GET" : String) == "OPTIONS") = false := rfl
    have hm2 : ("GET" == "GET" && endswith_py "/findings" "/findings") = true :=
      rfl
    have hsev : lookupParam [("severity", "CRITICAL"), ("limit", "1")]
        "severity" = some "CRITICAL" := rfl
    have hlim : lookupParam [("severity", "CRITICAL"), ("limit", "1")]
        "limit" = some "1" := rfl
    have hid : lookupParam [("severity", "CRITICAL"), ("limit", "1")]
        "id" = none := rfl
    have hp : int_py "1" = some 1 := rfl
    have hsb : (!(("CRITICAL" : String) == "") &&
        !(severities.contains "CRITICAL")) = false := rfl
    have hr : (decide ((1 : Int) < 1) || decide ((1 : Int) > 1000)) =
        false := rfl
    simp only [findingsReq, hm1, hm2, Bool.false_eq_true, if_false, if_true,
      hsev, hlim, hid, Option.getD_some, hp, hsb, hr, htable]
    have hce : (("CRITICAL" : String) == "") = false := rfl
    simp only [hce, Bool.false_eq_true, if_false]
    rw [show ((1 : Int).toNat) = 1 from rfl, hq]
  · intro env tn items htable hq
    unfold lambda_handler handler_body findings_route
      query_findings_by_severity
    have hm1 : (("GET" : String) == "OPTIONS") = false := rfl
    have hm2 : ("GET" == "GET" && endswith_py "/findings" "/findings") = true :=
      rfl
    have hsev : lookupParam [("severity", "CRITICAL"), ("limit", "1000")]
        "severity" = some "CRITICAL" := rfl
    have hlim : lookupParam [("severity", "CRITICAL"), ("limit", "1000")]
        "limit" = some "1000" := rfl
    have hid : lookupParam [("severity", "CRITICAL"), ("limit", "1000")]
        "id" = none := rfl
    have hp : int_py "1000" = some 1000 := rfl
    have hsb : (!(("CRITICAL" : String) == "") &&
        !(severities.contains "CRITICAL")) = false := rfl
    have hr : (decide ((1000 : Int) < 1) || decide ((1000 : Int) > 1000)) =
        false := rfl
    simp only [findingsReq, hm1, hm2, Bool.false_eq_true, if_false, if_true,
      hsev, hlim, hid, Option.getD_some, hp, hsb, hr, htable]
    have hce : (("CRITICAL" : String) == "") = false := rfl
    simp only [hce, Bool.false_eq_true, if_false]
    rw [show ((1000 : Int).toNat) = 1000 from rfl, hq]

/-- Witness: `limit=0`, `limit=1001` and a non-numeric `limit` are 400s;
`limit=1` and `limit=1000` succeed against a live store. -/
theorem limit_boundary_validation_witness :
    lambda_handler apiEnvHealthyEmpty (findingsReq [("limit", "0")]) =
      create_response 400
        (invalidLimitBody "2024-01-15T10:30:00+00:00") ∧
    lambda_handler apiEnvHealthyEmpty (findingsReq [("limit", "1001")]) =
      create_response 400
        (invalidLimitBody "2024-01-15T10:30:00+00:00") ∧
    lambda_handler apiEnvHealthyEmpty (findingsReq [("limit", "not-a-number")]) =
      create_response 400
        (invalidLimitBody "2024-01-15T10:30:00+00:00") ∧
    lambda_handler apiEnvHealthyEmpty
        (findingsReq [("severity", "CRITICAL"), ("limit", "1")]) =
      create_response 200
        { emptyBody with
            success := some true, data := some (.items []),
            count := some 0,
            timestamp := some "2024-01-15T10:30:00+00:00" } ∧
    lambda_handler apiEnvHealthyEmpty
        (findingsReq [("severity", "CRITICAL"), ("limit", "1000")]) =
      create_response 200
        { emptyBody with
            success := some true, data := some (.items []),
            count := some 0,
            timestamp := some "2024-01-15T10:30:00+00:00" } := by
  refine ⟨?_, ?_, ?_, ?_, ?_⟩
  · exact limit_boundary_validation.1 apiEnvHealthyEmpty "0"
      (Or.inr ⟨0, rfl, Or.inl (by decide)⟩)
  · exact limit_boundary_validation.1 apiEnvHealthyEmpty "1001"
      (Or.inr ⟨1001, rfl, Or.inr (by decide)⟩)
  · exact limit_boundary_validation.1 apiEnvHealthyEmpty "not-a-number"
      (Or.inl rfl)
  · exact limit_boundary_validation.2.1 apiEnvHealthyEmpty "cspm-findings"
      [] rfl rfl
  · exact limit_boundary_validation.2.2 apiEnvHealthyEmpty "cspm-findings"
      [] rfl rfl

end CSPM.Api

namespace CSPM.Api

/-- An API invocation whose every collaborator call raises a `ClientError`
whose exception text is `d` (the store, the index, the scan, the item
lookup and the SSM parameter all fail alike). -/
def apiFailEnv (d : String) : ApiEnv :=
  { tableParam := .error d, gsiQuery := fun _ _ => .error d,
    gsiCount := fun _ => .error d, table := [], scanHealth := .error d,
    getItem := fun _ => .error d,
    nowIso := "2024-01-15T10:30:00+00:00" }

/-- On a failing backend, the `/findings` route either raises the
collaborator's exception (to be caught by the outer handler) or answers a
validation response that is independent of the exception text. -/
theorem findings_route_fail_pair (d1 d2 : String)
    (qp : List (String × String)) :
    (findings_route (apiFailEnv d1) qp = .error d1 ∧
     findings_route (apiFailEnv d2) qp = .error d2) ∨
    findings_route (apiFailEnv d1) qp = findings_route (apiFailEnv d2) qp := by
  unfold findings_route
  cases hs : lookupParam qp "severity" with
  | some s =>
    simp only [hs]
    cases hsb : !(s == "") && !(severities.contains s) with
    | true =>
      simp only [hsb, eq_self_iff_true, if_true]
      right
      rfl
    | false =>
      simp only [hsb, Bool.false_eq_true, if_false]
      cases hl : int_py ((lookupParam qp "limit").getD "100") with
      | none =>
        simp only [hl]
        right
        rfl
      | some l =>
        simp only [hl]
        cases hr : decide (l < 1) || decide (l > 1000) with
        | true =>
          simp only [hr, eq_self_iff_true, if_true]
          right
          rfl
        | false =>
          simp only [hr, Bool.false_eq_true, if_false]
          cases hid : lookupParam qp "id" with
          | some fid =>
            simp only [hid]
            cases hfmt : fid == "" || decide (fid.length > 256) with
            | true =>
              simp only [hfmt, eq_self_iff_true, if_true]
              right
              rfl
            | false =>
              simp only [hfmt, Bool.false_eq_true, if_false]
              left
              exact ⟨rfl, rfl⟩
          | none =>
            simp only [hid]
            left
            exact ⟨rfl, rfl⟩
  | none =>
    simp only [hs, Bool.false_eq_true, if_false]
    cases hl : int_py ((lookupParam qp "limit").getD "100") with
    | none =>
      simp only [hl]
      right
      rfl
    | some l =>
      simp only [hl]
      cases hr : decide (l < 1) || decide (l > 1000) with
      | true =>
        simp only [hr, eq_self_iff_true, if_true]
        right
        rfl
      | false =>
        simp only [hr, Bool.false_eq_true, if_false]
        cases hid : lookupParam qp "id" with
        | some fid =>
          simp only [hid]
          cases hfmt : fid == "" || decide (fid.length > 256) with
          | true =>
            simp only [hfmt, eq_self_iff_true, if_true]
            right
            rfl
          | false =>
            simp only [hfmt, Bool.false_eq_true, if_false]
            left
            exact ⟨rfl, rfl⟩
        | none =>
          simp only [hid]
          left
          exact ⟨rfl, rfl⟩

/-- On a failing backend, any `/findings` response the route does produce
is a 4xx validation response, never a 500. -/
theorem findings_route_fail_not_500 (d : String)
    (qp : List (String × String)) (resp : ApiResponse)
    (h : findings_route (apiFailEnv d) qp = .ok resp) :
    resp.statusCode = 400 := by
  unfold findings_route at h
  cases hs : lookupParam qp "severity" with
  | some s =>
    rw [hs] at h
    cases hsb : !(s == "") && !(severities.contains s) with
    | true =>
      simp only [hsb, eq_self_iff_true, if_true, Except.ok.injEq] at h
      subst h
      rfl
    | false =>
      simp only [hsb, Bool.false_eq_true, if_false] at h
      cases hl : int_py ((lookupParam qp "limit").getD "100") with
      | none =>
        simp only [hl, Except.ok.injEq] at h
        subst h
        rfl
      | some l =>
        simp only [hl] at h
        cases hr : decide (l < 1) || decide (l > 1000) with
        | true =>
          simp only [hr, eq_self_iff_true, if_true, Except.ok.injEq] at h
          subst h
          rfl
        | false =>
          simp only [hr, Bool.false_eq_true, if_false] at h
          cases hid : lookupParam qp "id" with
          | some fid =>
            simp only [hid] at h
            cases hfmt : fid == "" || decide (fid.length > 256) with
            | true =>
              simp only [hfmt, eq_self_iff_true, if_true,
                Except.ok.injEq] at h
              subst h
              rfl
            | false =>
              simp only [hfmt, Bool.false_eq_true, if_false] at h
              cases h
          | none =>
            simp only [hid] at h
            cases h
  | none =>
    rw [hs] at h
    simp only [Bool.false_eq_true, if_false] at h
    cases hl : int_py ((lookupParam qp "limit").getD "100") with
    | none =>
      simp only [hl, Except.ok.injEq] at h
      subst h
      rfl
    | some l =>
      simp only [hl] at h
      cases hr : decide (l < 1) || decide (l > 1000) with
      | true =>
        simp only [hr, eq_self_iff_true, if_true, Except.ok.injEq] at h
        subst h
        rfl
      | false =>
        simp only [hr, Bool.false_eq_true, if_false] at h
        cases hid : lookupParam qp "id" with
        | some fid =>
          simp only [hid] at h
          cases hfmt : fid == "" || decide (fid.length > 256) with
          | true =>
            simp only [hfmt, eq_self_iff_true, if_true,
              Except.ok.injEq] at h
            subst h
            rfl
          | false =>
            simp only [hfmt, Bool.false_eq_true, if_false] at h
            cases h
        | none =>
          simp only [hid] at h
          cases h

/-- **C10 (amended).**  In the query service, the client-facing response
never varies with, and never contains, the internal exception's detail:
two invocations failing with different collaborator exception texts return
identical responses for every request, and every 500 response carries the
fixed error string `Internal server error`.  The archiver, by contrast,
places `str(e)` verbatim in its failure body's `error` field (see the
counterexample theorem). -/
theorem api_error_noninterference :
    ∀ (d1 d2 : String) (req : ApiRequest),
      lambda_handler (apiFailEnv d1) req = lambda_handler (apiFailEnv d2) req ∧
      ((lambda_handler (apiFailEnv d1) req).statusCode = 500 →
        (lambda_handler (apiFailEnv d1) req).body.error =
          some "Internal server error") ∧
      (∀ d : String,
        (CSPM.Archiver.lambda_handler (CSPM.Archiver.archFailEnv d)).error =
          some d) := by
  intro d1 d2 req
  refine ⟨?_, ?_, fun d => rfl⟩
  · unfold lambda_handler handler_body
    cases h1 : req.httpMethod == "OPTIONS" with
    | true => rfl
    | false =>
      cases h2 : req.httpMethod == "GET" && endswith_py req.path "/findings" with
      | true =>
        simp only [Bool.false_eq_true, if_false, if_true]
        rcases findings_route_fail_pair d1 d2 req.queryStringParameters with
          ⟨ha, hb⟩ | heq
        · rw [ha, hb]
          rfl
        · rw [heq]
          rfl
      | false =>
        cases h3 : req.httpMethod == "GET" && endswith_py req.path "/summary" with
        | true => rfl
        | false =>
          cases h4 : req.httpMethod == "GET" && endswith_py req.path "/health" with
          | true => rfl
          | false => rfl
  · unfold lambda_handler handler_body
    cases h1 : req.httpMethod == "OPTIONS" with
    | true =>
      intro h
      simp [create_response] at h
    | false =>
      cases h2 : req.httpMethod == "GET" && endswith_py req.path "/findings" with
      | true =>
        simp only [Bool.false_eq_true, if_false, if_true]
        cases hr : findings_route (apiFailEnv d1) req.queryStringParameters with
        | error e =>
          intro _
          rfl
        | ok resp =>
          intro h500
          have h400 := findings_route_fail_not_500 d1
            req.queryStringParameters resp hr
          simp only [] at h500
          rw [h400] at h500
          exact absurd h500 (by decide)
      | false =>
        cases h3 : req.httpMethod == "GET" && endswith_py req.path "/summary" with
        | true =>
          intro _
          rfl
        | false =>
          cases h4 : req.httpMethod == "GET" && endswith_py req.path "/health" with
          | true =>
            intro h
            simp [create_response] at h
          | false =>
            intro h
            simp [create_response] at h

/-- **C10 counterexample.**  Two archiver runs failing with different
internal exception texts produce different client-facing responses, and
the response embeds the internal text verbatim in its `error` field — the
claim's noninterference fails for the archiver. -/
theorem error_detail_leaked_cex :
    (CSPM.Archiver.lambda_handler
        (CSPM.Archiver.archFailEnv "ClientError: ssm outage alpha")).error =
      some "ClientError: ssm outage alpha" ∧
    CSPM.Archiver.lambda_handler
        (CSPM.Archiver.archFailEnv "ClientError: ssm outage alpha") ≠
      CSPM.Archiver.lambda_handler
        (CSPM.Archiver.archFailEnv "ClientError: ssm outage beta") := by
  exact ⟨rfl, by decide⟩

/-- Witness: two summary requests failing with different exception texts
give one and the same 500 response with the fixed message. -/
theorem api_error_noninterference_witness :
    lambda_handler (apiFailEnv "boom-alpha")
        { httpMethod := "GET", path := "/summary",
          queryStringParameters := [] } =
      lambda_handler (apiFailEnv "boom-beta")
        { httpMethod := "GET", path := "/summary",
          queryStringParameters := [] } ∧
    (lambda_handler (apiFailEnv "boom-alpha")
        { httpMethod := "GET", path := "/summary",
          queryStringParameters := [] }).body.error =
      some "Internal server error" := by
  refine ⟨(api_error_noninterference "boom-alpha" "boom-beta" _).1, ?_⟩
  exact (api_error_noninterference "boom-alpha" "boom-beta"
    { httpMethod := "GET", path := "/summary",
      queryStringParameters := [] }).2.1 rfl

end CSPM.Api
